import Mathlib

/-!
Verification of the connection-supervisor component of the cloudflared fork
(`supervisor/supervisor.go`, `supervisor/tunnel.go`, `edgediscovery/dial.go`).

The Go code is shallowly embedded: pure decision logic becomes Lean
functions, mutable objects (`protocolFallback`, `ipAddrFallback`, the
supervisor's connection bookkeeping) become explicit state passing, and
interactions with the network are captured by an oracle environment that
fixes the outcome of each dial / TLS handshake.
-/

/- ===================== String containment (Go strings.Contains) ===================== -/

/-- Prefix test on character lists: does the second list start with the first? -/
def matchesAt : List Char → List Char → Bool
  | [], _ => true
  | _ :: _, [] => false
  | a :: as, b :: bs => a == b && matchesAt as bs

/-- Occurrence test for `pat` inside a character list, scanning left to right. -/
def containsSub (pat : List Char) : List Char → Bool
  | [] => matchesAt pat []
  | s@(_ :: rest) => matchesAt pat s || containsSub pat rest

/-- Embedding of Go `strings.Contains s pat`. -/
def containsSubstr (s pat : String) : Bool :=
  containsSub pat.toList s.toList

/- ===================== Error model ===================== -/

/-- The dynamic error types that the supervisor code switches on
(`ReconnectSignal`, `edgediscovery.ErrNoAddressesLeft`,
`connection.DupConnRegisterTunnelError`, `*quic.IdleTimeoutError`,
`*quic.ApplicationError`, `*quic.TransportError`, `edgediscovery.DialError`,
`*connection.EdgeQuicDialError`, `*connection.ControlStreamError`,
`*connection.StreamListenerError`, `*connection.DatagramManagerError`);
everything else is `otherError`. -/
inductive errKind
  | reconnectSignal
  | noAddressesLeft
  | dupConnRegisterTunnelError
  | quicIdleTimeoutError
  | quicApplicationError
  | quicTransportError
  | dialError
  | edgeQuicDialError
  | controlStreamError
  | streamListenerError
  | datagramManagerError
  | otherError
deriving DecidableEq, Repr

/-- A Go error as the supervisor sees it: its dynamic type together with
the string returned by its `Error()` method. -/
structure tunnelErr where
  kind : errKind
  msg : String
deriving DecidableEq, Repr

/- ===================== Protocols and backoff ===================== -/

/-- The two wire protocols of `connection.Protocol` that the supervisor
switches between. -/
inductive Protocol
  | QUIC
  | HTTP2
deriving DecidableEq, Repr

/-- Modelled from the spec: the `retry.BackoffHandler` collaborator is not
part of the supplied sources.  Per the spec it carries a retry counter against
a maximum: `ReachedMaxRetries() → bool`, and `reset()` "clears the backoff
counter". -/
structure BackoffHandler where
  retryCount : Nat
  maxRetries : Nat
deriving DecidableEq, Repr

/-- Modelled from the spec: whether the backoff counter has reached its maximum. -/
def BackoffHandler.ReachedMaxRetries (b : BackoffHandler) : Bool :=
  b.maxRetries ≤ b.retryCount

/-- Modelled from the spec: clear the backoff counter. -/
def BackoffHandler.ResetNow (b : BackoffHandler) : BackoffHandler :=
  { b with retryCount := 0 }

/-- Modelled from the spec: the boolean component of
`GetMaxBackoffDuration(ctx) → (dur, retry)` — "whether more retries remain
(false = give up)". -/
def BackoffHandler.retryRemains (b : BackoffHandler) : Bool :=
  b.retryCount < b.maxRetries

/-- `protocolFallback` wraps a backoff handler, the protocol of the next
attempt, and whether a fallback has been taken (supervisor.go). -/
structure protocolFallback where
  backoff : BackoffHandler
  protocol : Protocol
  inFallback : Bool
deriving DecidableEq, Repr

/-- `(pf *protocolFallback) reset()`: `ResetNow` then `inFallback = false`. -/
def protocolFallback.reset (pf : protocolFallback) : protocolFallback :=
  { pf with backoff := pf.backoff.ResetNow, inFallback := false }

/-- `(pf *protocolFallback) fallback(p)`: `ResetNow`, set `protocol = p`,
set `inFallback = true`. -/
def protocolFallback.fallback (pf : protocolFallback) (p : Protocol) : protocolFallback :=
  { pf with backoff := pf.backoff.ResetNow, protocol := p, inFallback := true }

/-- The promoted `ReachedMaxRetries` method of the embedded backoff handler. -/
def protocolFallback.ReachedMaxRetries (pf : protocolFallback) : Bool :=
  pf.backoff.ReachedMaxRetries

/-- The boolean returned by `pf.GetMaxBackoffDuration(ctx)`
(modelled from the spec, see `BackoffHandler.retryRemains`). -/
def protocolFallback.retryRemains (pf : protocolFallback) : Bool :=
  pf.backoff.retryRemains

/-- The `connection.ProtocolSelector` collaborator: a current protocol and an
optional fallback protocol.  `Fallback()` returns `(p, true)` when a fallback
exists, `(_, false)` otherwise; we model the pair with an `Option`. -/
structure ProtocolSelector where
  current : Protocol
  fallbackProtocol : Option Protocol
deriving DecidableEq, Repr

/-- `selector.Current()`. -/
def ProtocolSelector.Current (s : ProtocolSelector) : Protocol :=
  s.current

/- ===================== selectNextProtocol (supervisor.go) ===================== -/

/-- `isQuicBroken(cause)`: a QUIC idle-timeout error, or a QUIC transport
error whose message contains "operation not permitted". -/
def isQuicBroken (cause : tunnelErr) : Bool :=
  cause.kind = errKind.quicIdleTimeoutError ||
    (cause.kind = errKind.quicTransportError &&
      containsSubstr cause.msg "operation not permitted")

/-- `selectNextProtocol(connLog, protocolBackoff, selector, cause)`:
returns the updated `protocolFallback` state together with the boolean
result (`true` = keep retrying, `false` = stop). -/
def selectNextProtocol (protocolBackoff : protocolFallback)
    (selector : ProtocolSelector) (cause : tunnelErr) :
    protocolFallback × Bool :=
  let quicBroken := isQuicBroken cause
  let hasFallback := selector.fallbackProtocol.isSome
  if protocolBackoff.ReachedMaxRetries || (hasFallback && quicBroken) then
    match selector.fallbackProtocol with
    | none => (protocolBackoff, false)
    | some fb =>
      if protocolBackoff.protocol = fb then
        (protocolBackoff, false)
      else
        (protocolBackoff.fallback fb, true)
  else if !protocolBackoff.inFallback then
    if protocolBackoff.protocol ≠ selector.Current then
      ({ protocolBackoff with protocol := selector.Current }, true)
    else
      (protocolBackoff, true)
  else
    (protocolBackoff, true)

/- ===================== EdgeDialer (edgediscovery/dial.go) ===================== -/

/-- Outcome of one network dial attempt, fixed by the oracle environment:
either a TCP connection (identified by a number) or an error message. -/
inductive dialOutcome
  | conn (id : Nat)
  | failure (msg : String)
deriving DecidableEq, Repr

/-- Oracle environment for `DialEdgeWithProxy`: the outcome of every
external interaction the function can perform (URL parsing, SOCKS5 dialer
construction, the proxied dial, the direct dial, and the TLS handshake on
any given TCP connection). -/
structure dialEnv where
  proxyParseOk : Bool
  socks5DialerOk : Bool
  proxyDial : dialOutcome
  directDial : dialOutcome
  tlsHandshakeOk : Nat → Bool

/-- A connection value as returned to the caller: a TLS client wrapped
around TCP connection `id` with a completed handshake. -/
inductive edgeConn
  | tlsWrapped (id : Nat)
deriving DecidableEq, Repr

/-- `edgediscovery.DialError`: the wrapping message together with the
underlying cause's message. -/
structure DialError where
  message : String
  cause : String
deriving DecidableEq, Repr

/-- `newDialError(err, message)`. -/
def newDialError (cause message : String) : DialError :=
  { message := message, cause := cause }

/-- `dialViaProxy(ctx, proxyURL, address, localIP)`: parse the URL, build
the SOCKS5 dialer, then dial through it.  Each step's outcome comes from the
environment; a failure at any step is wrapped and returned. -/
def dialViaProxy (env : dialEnv) : Except String Nat :=
  if !env.proxyParseOk then
    Except.error "invalid proxy URL"
  else if !env.socks5DialerOk then
    Except.error "failed to create SOCKS5 dialer"
  else
    match env.proxyDial with
    | dialOutcome.conn id => Except.ok id
    | dialOutcome.failure msg => Except.error ("proxy dial failed: " ++ msg)

/-- `dialDirect(ctx, address, localIP)`. -/
def dialDirect (env : dialEnv) : Except String Nat :=
  match env.directDial with
  | dialOutcome.conn id => Except.ok id
  | dialOutcome.failure msg => Except.error msg

deriving instance DecidableEq for Except

/-- Result of `DialEdgeWithProxy` together with its observable resource
actions: which TCP connections it opened and which it explicitly closed.
The Go function body contains no `Close` call, which the embedding records
faithfully. -/
structure dialResult where
  result : Except DialError edgeConn
  openedConns : List Nat
  closedConns : List Nat
deriving DecidableEq, Repr

/-- The TLS phase of `DialEdgeWithProxy`: wrap the TCP connection `id` in a
TLS client, perform the handshake, return the wrapped connection on success
and a "TLS handshake with edge error" `DialError` on failure.  No `Close`
occurs on either path in the source. -/
def tlsPhase (env : dialEnv) (opened : List Nat) (id : Nat) (handshakeErrMsg : String) :
    dialResult :=
  if env.tlsHandshakeOk id then
    { result := Except.ok (edgeConn.tlsWrapped id), openedConns := opened,
      closedConns := [] }
  else
    { result := Except.error (newDialError handshakeErrMsg "TLS handshake with edge error"),
      openedConns := opened, closedConns := [] }

/-- `DialEdgeWithProxy(ctx, timeout, tlsConfig, edgeTCPAddr, localIP, proxyURL)`:
when `proxyURL` is non-empty attempt the SOCKS5 dial first and drop any error
from it; if no connection was obtained, dial directly (a direct failure is a
"DialContext error" `DialError`); finally run the TLS handshake.  The
environment's `tlsHandshakeOk` decides the handshake; its error message is
opaque, so the embedding threads an empty cause. -/
def DialEdgeWithProxy (env : dialEnv) (proxyURL : String) : dialResult :=
  let edgeConnAfterProxy : Option Nat :=
    if proxyURL ≠ "" then
      match dialViaProxy env with
      | Except.ok id => some id
      | Except.error _ => none
    else
      none
  match edgeConnAfterProxy with
  | some id => tlsPhase env [id] id ""
  | none =>
    match dialDirect env with
    | Except.error e =>
      { result := Except.error (newDialError e "DialContext error"),
        openedConns := [], closedConns := [] }
    | Except.ok id => tlsPhase env [id] id ""

/- ===================== EdgeAddrHandler (supervisor/tunnel.go) ===================== -/

/-- `ConnectivityError`. -/
structure ConnectivityError where
  reachedMaxRetries : Bool
deriving DecidableEq, Repr

/-- `NewConnectivityError(hasReachedMaxRetries)`. -/
def NewConnectivityError (hasReachedMaxRetries : Bool) : ConnectivityError :=
  { reachedMaxRetries := hasReachedMaxRetries }

/-- `(e *ConnectivityError) HasReachedMaxRetries()`. -/
def ConnectivityError.HasReachedMaxRetries (e : ConnectivityError) : Bool :=
  e.reachedMaxRetries

/-- Lookup in an association list modelling a Go `map[uint8]uint8`:
a missing key reads as the zero value 0. -/
def alGet (m : List (Nat × Nat)) (k : Nat) : Nat :=
  match m with
  | [] => 0
  | p :: rest => if p.1 = k then p.2 else alGet rest k

/-- Store into an association list modelling a Go `map[uint8]uint8`. -/
def alSet (m : List (Nat × Nat)) (k v : Nat) : List (Nat × Nat) :=
  match m with
  | [] => [(k, v)]
  | p :: rest => if p.1 = k then (k, v) :: rest else p :: alSet rest k v

/-- `ipAddrFallback`: per-connection-index retry counters and the maximum
(the mutex is irrelevant in the sequential embedding). -/
structure ipAddrFallback where
  retriesByConnIndex : List (Nat × Nat)
  maxRetries : Nat
deriving DecidableEq, Repr

/-- `NewIPAddrFallback(maxRetries)`. -/
def NewIPAddrFallback (maxRetries : Nat) : ipAddrFallback :=
  { retriesByConnIndex := [], maxRetries := maxRetries }

/-- `(f *ipAddrFallback) ShouldGetNewAddress(connIndex, err)`: returns the
updated handler state, `needsNewAddress`, and the connectivity error. -/
def ipAddrFallback.ShouldGetNewAddress (f : ipAddrFallback) (connIndex : Nat)
    (err : Option tunnelErr) :
    ipAddrFallback × Bool × Option ConnectivityError :=
  match err with
  | none => (f, false, none)
  | some e =>
    match e.kind with
    | errKind.dupConnRegisterTunnelError => (f, true, none)
    | errKind.quicIdleTimeoutError => (f, true, none)
    | errKind.dialError =>
      let cur := alGet f.retriesByConnIndex connIndex
      if f.maxRetries ≤ cur then
        ({ f with retriesByConnIndex := alSet f.retriesByConnIndex connIndex 0 },
          true, some (NewConnectivityError true))
      else
        ({ f with retriesByConnIndex := alSet f.retriesByConnIndex connIndex (cur + 1) },
          true, some (NewConnectivityError false))
    | errKind.edgeQuicDialError =>
      let cur := alGet f.retriesByConnIndex connIndex
      if f.maxRetries ≤ cur then
        ({ f with retriesByConnIndex := alSet f.retriesByConnIndex connIndex 0 },
          true, some (NewConnectivityError true))
      else
        ({ f with retriesByConnIndex := alSet f.retriesByConnIndex connIndex (cur + 1) },
          true, some (NewConnectivityError false))
    | _ => (f, false, none)

/- ===================== Supervisor state (supervisor.go) ===================== -/

/-- The part of the `Supervisor` struct touched by `waitForNextTunnel`:
`tunnelsConnecting` (index → per-attempt channel, channels named by numbers),
`nextConnectedIndex` and `nextConnectedSignal` (`none` models a nil channel). -/
structure Supervisor where
  tunnelsConnecting : List (Nat × Nat)
  nextConnectedIndex : Nat
  nextConnectedSignal : Option Nat
deriving DecidableEq, Repr

/-- Go `delete(m, k)` on the association-list map. -/
def alErase (m : List (Nat × Nat)) (k : Nat) : List (Nat × Nat) :=
  m.filter (fun p => p.1 ≠ k)

/-- `(s *Supervisor) waitForNextTunnel(index)`: delete `index` from
`tunnelsConnecting`, set `nextConnectedSignal = nil`, then point
`(nextConnectedIndex, nextConnectedSignal)` at a remaining entry if one
exists (Go range order is arbitrary; the embedding takes the list head)
and return whether one existed. -/
def Supervisor.waitForNextTunnel (s : Supervisor) (index : Nat) : Supervisor × Bool :=
  let m := alErase s.tunnelsConnecting index
  match m with
  | [] =>
    ({ s with tunnelsConnecting := m, nextConnectedSignal := none }, false)
  | (k, v) :: _ =>
    let s2 := { s with tunnelsConnecting := m, nextConnectedIndex := k,
                       nextConnectedSignal := some v }
    (s2, true)

/-- `(s *Supervisor) newConnectedTunnelSignal(index)`: make a fresh
per-attempt channel (`sig` names the channel the allocator returns), record
it in `tunnelsConnecting[index]`, and point `nextConnectedSignal` /
`nextConnectedIndex` at it. -/
def Supervisor.newConnectedTunnelSignal (s : Supervisor) (index : Nat) (sig : Nat) :
    Supervisor :=
  { s with tunnelsConnecting := alSet s.tunnelsConnecting index sig,
           nextConnectedSignal := some sig,
           nextConnectedIndex := index }

/-- The mutable state of the `Supervisor.Run` steady-state loop. -/
structure runLoopState where
  supervisor : Supervisor
  tunnelsWaiting : List Nat
  tunnelsActive : Int
  backoffTimerRunning : Bool
  shuttingDown : Bool
deriving DecidableEq, Repr

/-- What the `tunnelError` arm of `Supervisor.Run` does besides updating
state. -/
inductive runLoopOutcome
  | respawnedNow
  | abandoned
  | queuedForBackoff
  | exited
  | idle
deriving DecidableEq, Repr

/-- The `case tunnelError := <-s.tunnelErrors` arm of `Supervisor.Run`:
decrement the active count; if the error is non-nil and we are not shutting
down, respawn immediately on `ReconnectSignal` — evaluating
`s.newConnectedTunnelSignal(index)` synchronously on the supervisor
goroutine for the respawned attempt (`freshSig` names the fresh channel it
allocates) — abandon the index when `GetMaxBackoffDuration` reports no
retries remain (`canRetry`), and otherwise queue the index for the shared
backoff timer (starting the timer if it is not running); with a nil error
(or when shutting down), exit the loop when no tunnels remain active. -/
def handleTunnelError (st : runLoopState) (index : Nat) (err : Option tunnelErr)
    (canRetry : Bool) (freshSig : Nat) : runLoopState × runLoopOutcome :=
  let st1 := { st with tunnelsActive := st.tunnelsActive - 1 }
  match err with
  | some e =>
    if st1.shuttingDown then
      if st1.tunnelsActive = 0 then (st1, runLoopOutcome.exited)
      else (st1, runLoopOutcome.idle)
    else if e.kind = errKind.reconnectSignal then
      ({ st1 with tunnelsActive := st1.tunnelsActive + 1,
                  supervisor := st1.supervisor.newConnectedTunnelSignal index freshSig },
        runLoopOutcome.respawnedNow)
    else if !canRetry then
      (st1, runLoopOutcome.abandoned)
    else
      let st2 := { st1 with
        tunnelsWaiting := st1.tunnelsWaiting ++ [index],
        supervisor := (st1.supervisor.waitForNextTunnel index).1 }
      if st2.backoffTimerRunning then (st2, runLoopOutcome.queuedForBackoff)
      else ({ st2 with backoffTimerRunning := true }, runLoopOutcome.queuedForBackoff)
  | none =>
    if st1.tunnelsActive = 0 then (st1, runLoopOutcome.exited)
    else (st1, runLoopOutcome.idle)

/- ===================== startFirstTunnel (supervisor.go) ===================== -/

/-- Decision taken by one iteration of the `startFirstTunnel` retry loop. -/
inductive firstTunnelStep
  | stopLoop
  | retryLoop
deriving DecidableEq, Repr

/-- One iteration of the retry loop in `startFirstTunnel`, after
`Serve` has returned: stop on context cancellation, on success, or when
`GetMaxBackoffDuration` reports no retries remain; retry when the error
message contains "Unauthorized"; otherwise retry exactly for the listed
recoverable error types (with `ErrNoAddressesLeft` retried only under a
static edge configuration). -/
def startFirstTunnelBody (isStaticEdge : Bool) (ctxDone : Bool)
    (serveErr : Option tunnelErr) (pf : protocolFallback) : firstTunnelStep :=
  if ctxDone then firstTunnelStep.stopLoop
  else
    match serveErr with
    | none => firstTunnelStep.stopLoop
    | some e =>
      if !pf.retryRemains then firstTunnelStep.stopLoop
      else if containsSubstr e.msg "Unauthorized" then firstTunnelStep.retryLoop
      else
        match e.kind with
        | errKind.noAddressesLeft =>
          if isStaticEdge then firstTunnelStep.retryLoop else firstTunnelStep.stopLoop
        | errKind.dupConnRegisterTunnelError => firstTunnelStep.retryLoop
        | errKind.quicIdleTimeoutError => firstTunnelStep.retryLoop
        | errKind.quicApplicationError => firstTunnelStep.retryLoop
        | errKind.dialError => firstTunnelStep.retryLoop
        | errKind.edgeQuicDialError => firstTunnelStep.retryLoop
        | errKind.controlStreamError => firstTunnelStep.retryLoop
        | errKind.streamListenerError => firstTunnelStep.retryLoop
        | errKind.datagramManagerError => firstTunnelStep.retryLoop
        | _ => firstTunnelStep.stopLoop

/-- A concrete dial environment: the proxy dial is refused, the direct dial
yields TCP connection 3, and the TLS handshake always fails. -/
def handshakeFailEnv : dialEnv :=
  { proxyParseOk := true, socks5DialerOk := true,
    proxyDial := dialOutcome.failure "refused", directDial := dialOutcome.conn 3,
    tlsHandshakeOk := fun _ => false }

/-- A concrete dial environment: the proxy URL does not parse, the direct
dial yields TCP connection 3, and the TLS handshake always succeeds. -/
def proxyDownEnv : dialEnv :=
  { proxyParseOk := false, socks5DialerOk := true,
    proxyDial := dialOutcome.conn 9, directDial := dialOutcome.conn 3,
    tlsHandshakeOk := fun _ => true }

/-- A concrete run-loop state with four active tunnels, used as a witness
input. -/
def sampleRunLoopState : runLoopState where
  supervisor := { tunnelsConnecting := [], nextConnectedIndex := 0, nextConnectedSignal := none }
  tunnelsWaiting := []
  tunnelsActive := 4
  backoffTimerRunning := false
  shuttingDown := false

/- ===================== Theorems ===================== -/

/-- `alGet` after `alSet` at the same key yields the stored value. -/
theorem alGet_alSet_same (m : List (Nat × Nat)) (k v : Nat) :
    alGet (alSet m k v) k = v := by
  induction m with
  | nil => simp [alSet, alGet]
  | cons p rest ih =>
    by_cases h : p.1 = k <;> simp [alSet, alGet, h, ih]

/-- `alGet` after `alSet` at a different key is unchanged. -/
theorem alGet_alSet_other (m : List (Nat × Nat)) (k v j : Nat) (h : j ≠ k) :
    alGet (alSet m k v) j = alGet m j := by
  have h2 : ¬(k = j) := fun hh => h hh.symm
  induction m with
  | nil => simp [alSet, alGet, h2]
  | cons p rest ih =>
    by_cases hp : p.1 = k
    · simp [alSet, alGet, hp, h2]
    · by_cases hq : p.1 = j <;> simp [alSet, alGet, hp, hq, ih, h]

/-- Deleting an absent key from the association map is the identity. -/
theorem alErase_of_absent (m : List (Nat × Nat)) (k : Nat)
    (h : ∀ p ∈ m, p.1 ≠ k) : alErase m k = m := by
  unfold alErase
  rw [List.filter_eq_self]
  intro a ha
  simpa using h a ha

/-- `ShouldGetNewAddress` never changes `maxRetries`. -/
theorem shouldGetNewAddress_preserves_max (f : ipAddrFallback) (i : Nat)
    (err : Option tunnelErr) :
    (f.ShouldGetNewAddress i err).1.maxRetries = f.maxRetries := by
  rcases err with _ | e
  · rfl
  · obtain ⟨k, m⟩ := e
    cases k <;> simp [ipAddrFallback.ShouldGetNewAddress] <;> split_ifs <;> rfl

/-- `ShouldGetNewAddress` leaves the retry counters of all other indices
unchanged. -/
theorem shouldGetNewAddress_other_counters (f : ipAddrFallback) (i : Nat)
    (err : Option tunnelErr) (j : Nat) (hj : j ≠ i) :
    alGet (f.ShouldGetNewAddress i err).1.retriesByConnIndex j =
      alGet f.retriesByConnIndex j := by
  rcases err with _ | e
  · rfl
  · obtain ⟨k, m⟩ := e
    cases k <;> simp [ipAddrFallback.ShouldGetNewAddress] <;> split_ifs <;>
      simp [alGet_alSet_other _ _ _ _ hj]

/-- `ShouldGetNewAddress` preserves the bound `counter ≤ maxRetries` on
every stored retry counter. -/
theorem shouldGetNewAddress_counter_le (f : ipAddrFallback) (i : Nat)
    (err : Option tunnelErr) (hf : ∀ j, alGet f.retriesByConnIndex j ≤ f.maxRetries) :
    ∀ j, alGet (f.ShouldGetNewAddress i err).1.retriesByConnIndex j ≤ f.maxRetries := by
  intro j
  by_cases hj : j = i
  · subst hj
    rcases err with _ | e
    · exact hf j
    · obtain ⟨k, m⟩ := e
      cases k <;> simp [ipAddrFallback.ShouldGetNewAddress] <;> try exact hf j
      all_goals
        split_ifs with hc
      all_goals simp [alGet_alSet_same]
      all_goals omega
  · rw [shouldGetNewAddress_other_counters f i err j hj]
    exact hf j

/-- C2: `selectNextProtocol` returns false exactly when the guard
(`protocolBackoff.ReachedMaxRetries()`, or the selector has a fallback and
the cause is QUIC-broken) holds and either the selector has no fallback or
the protocol already equals the fallback protocol; when the guard holds and
the fallback protocol differs it performs `fallback(alt)` and returns true;
and when the guard does not hold and `inFallback` is false it sets the
protocol to `selector.Current()` when they differ and returns true. -/
theorem selectNextProtocol_spec (pb : protocolFallback) (sel : ProtocolSelector)
    (cause : tunnelErr) :
    ((selectNextProtocol pb sel cause).2 = false ↔
      ((pb.ReachedMaxRetries || (sel.fallbackProtocol.isSome && isQuicBroken cause)) = true ∧
        (sel.fallbackProtocol = none ∨ sel.fallbackProtocol = some pb.protocol))) ∧
    (∀ fb, sel.fallbackProtocol = some fb →
      (pb.ReachedMaxRetries || (sel.fallbackProtocol.isSome && isQuicBroken cause)) = true →
      pb.protocol ≠ fb →
      selectNextProtocol pb sel cause = (pb.fallback fb, true)) ∧
    ((pb.ReachedMaxRetries || (sel.fallbackProtocol.isSome && isQuicBroken cause)) = false →
      pb.inFallback = false →
      selectNextProtocol pb sel cause = ({ pb with protocol := sel.Current }, true)) := by
  obtain ⟨b, prot, inf⟩ := pb
  rcases hfb : sel.fallbackProtocol with _ | fb
  · by_cases hg : b.ReachedMaxRetries = true
    · simp [selectNextProtocol, hfb, protocolFallback.ReachedMaxRetries, hg]
    · by_cases hif : inf
      · simp [selectNextProtocol, hfb, protocolFallback.ReachedMaxRetries, hg, hif]
      · by_cases hp : prot = sel.Current
        · simp [selectNextProtocol, hfb, protocolFallback.ReachedMaxRetries, hg, hif, hp]
        · simp [selectNextProtocol, hfb, protocolFallback.ReachedMaxRetries, hg, hif, hp]
  · by_cases hq : (b.ReachedMaxRetries || isQuicBroken cause) = true
    · by_cases hp : prot = fb
      · simp [selectNextProtocol, hfb, protocolFallback.ReachedMaxRetries, hq, hp,
          protocolFallback.fallback]
      · have hp2 : ¬fb = prot := fun h => hp h.symm
        simp [selectNextProtocol, hfb, protocolFallback.ReachedMaxRetries, hq, hp, hp2,
          protocolFallback.fallback]
    · by_cases hif : inf
      · simp [selectNextProtocol, hfb, protocolFallback.ReachedMaxRetries, hq, hif]
      · by_cases hp : prot = sel.Current
        · simp [selectNextProtocol, hfb, protocolFallback.ReachedMaxRetries, hq, hif, hp]
        · simp [selectNextProtocol, hfb, protocolFallback.ReachedMaxRetries, hq, hif, hp]

/-- C2 witness: a concrete run through the fallback branch of
`selectNextProtocol_spec`. -/
theorem selectNextProtocol_spec_witness :
    selectNextProtocol
      { backoff := { retryCount := 3, maxRetries := 3 }, protocol := Protocol.QUIC,
        inFallback := false }
      { current := Protocol.QUIC, fallbackProtocol := some Protocol.HTTP2 }
      { kind := errKind.otherError, msg := "" } =
    (protocolFallback.fallback
      { backoff := { retryCount := 3, maxRetries := 3 }, protocol := Protocol.QUIC,
        inFallback := false } Protocol.HTTP2, true) :=
  (selectNextProtocol_spec
    { backoff := { retryCount := 3, maxRetries := 3 }, protocol := Protocol.QUIC,
      inFallback := false }
    { current := Protocol.QUIC, fallbackProtocol := some Protocol.HTTP2 }
    { kind := errKind.otherError, msg := "" }).2.1 Protocol.HTTP2 rfl (by decide) (by decide)

/-- C6 counterexample: with a QUIC-broken cause and an available HTTP2
fallback, the first run of `selectNextProtocol` switches to the fallback and
returns true, while the second run (started from the state the first
produced) returns false — so running twice does not yield the same return
value as running once. -/
theorem selectNextProtocol_twice_return_differs :
    (selectNextProtocol
        { backoff := { retryCount := 0, maxRetries := 5 }, protocol := Protocol.QUIC,
          inFallback := false }
        { current := Protocol.QUIC, fallbackProtocol := some Protocol.HTTP2 }
        { kind := errKind.quicIdleTimeoutError, msg := "" }).2 = true ∧
    (selectNextProtocol
        (selectNextProtocol
          { backoff := { retryCount := 0, maxRetries := 5 }, protocol := Protocol.QUIC,
            inFallback := false }
          { current := Protocol.QUIC, fallbackProtocol := some Protocol.HTTP2 }
          { kind := errKind.quicIdleTimeoutError, msg := "" }).1
        { current := Protocol.QUIC, fallbackProtocol := some Protocol.HTTP2 }
        { kind := errKind.quicIdleTimeoutError, msg := "" }).2 = false := by decide

/-- C6 (amended): running `selectNextProtocol` twice in succession with the
same selector and cause, the second run starting from the state the first
produced, yields the same final `protocolFallback` state as running once;
the return value also agrees except that it may change from true to false
(a second run never returns true when the first returned false). -/
theorem selectNextProtocol_idempotent_state (pb : protocolFallback)
    (sel : ProtocolSelector) (cause : tunnelErr) :
    (selectNextProtocol (selectNextProtocol pb sel cause).1 sel cause).1 =
      (selectNextProtocol pb sel cause).1 ∧
    ((selectNextProtocol (selectNextProtocol pb sel cause).1 sel cause).2 = true →
      (selectNextProtocol pb sel cause).2 = true) := by
  obtain ⟨b, prot, inf⟩ := pb
  rcases hfb : sel.fallbackProtocol with _ | fb
  · by_cases hg : b.ReachedMaxRetries = true
    · simp [selectNextProtocol, hfb, protocolFallback.ReachedMaxRetries, hg]
    · by_cases hif : inf
      · simp [selectNextProtocol, hfb, protocolFallback.ReachedMaxRetries, hg, hif]
      · by_cases hp : prot = sel.Current
        · simp [selectNextProtocol, hfb, protocolFallback.ReachedMaxRetries, hg, hif, hp]
        · simp [selectNextProtocol, hfb, protocolFallback.ReachedMaxRetries, hg, hif, hp]
  · by_cases hq : (b.ReachedMaxRetries || isQuicBroken cause) = true
    · by_cases hp : prot = fb
      · simp [selectNextProtocol, hfb, protocolFallback.ReachedMaxRetries, hq, hp]
      · by_cases hq2 : (b.ResetNow.ReachedMaxRetries || isQuicBroken cause) = true
        · simp [selectNextProtocol, hfb, protocolFallback.ReachedMaxRetries,
            protocolFallback.fallback, hq, hp, hq2]
        · simp [selectNextProtocol, hfb, protocolFallback.ReachedMaxRetries,
            protocolFallback.fallback, hq, hp, hq2]
    · by_cases hif : inf
      · simp [selectNextProtocol, hfb, protocolFallback.ReachedMaxRetries, hq, hif]
      · by_cases hp : prot = sel.Current
        · simp [selectNextProtocol, hfb, protocolFallback.ReachedMaxRetries, hq, hif, hp]
        · simp [selectNextProtocol, hfb, protocolFallback.ReachedMaxRetries, hq, hif, hp]

/-- C6 witness: at a concrete input whose second run returns true, the first
run also returned true, and the state is idempotent. -/
theorem selectNextProtocol_idempotent_state_witness :
    (selectNextProtocol
        (selectNextProtocol
          { backoff := { retryCount := 0, maxRetries := 5 }, protocol := Protocol.QUIC,
            inFallback := false }
          { current := Protocol.QUIC, fallbackProtocol := some Protocol.HTTP2 }
          { kind := errKind.otherError, msg := "" }).1
        { current := Protocol.QUIC, fallbackProtocol := some Protocol.HTTP2 }
        { kind := errKind.otherError, msg := "" }).1 =
      (selectNextProtocol
        { backoff := { retryCount := 0, maxRetries := 5 }, protocol := Protocol.QUIC,
          inFallback := false }
        { current := Protocol.QUIC, fallbackProtocol := some Protocol.HTTP2 }
        { kind := errKind.otherError, msg := "" }).1 ∧
    (selectNextProtocol
        { backoff := { retryCount := 0, maxRetries := 5 }, protocol := Protocol.QUIC,
          inFallback := false }
        { current := Protocol.QUIC, fallbackProtocol := some Protocol.HTTP2 }
        { kind := errKind.otherError, msg := "" }).2 = true :=
  ⟨(selectNextProtocol_idempotent_state
      { backoff := { retryCount := 0, maxRetries := 5 }, protocol := Protocol.QUIC,
        inFallback := false }
      { current := Protocol.QUIC, fallbackProtocol := some Protocol.HTTP2 }
      { kind := errKind.otherError, msg := "" }).1,
    (selectNextProtocol_idempotent_state
      { backoff := { retryCount := 0, maxRetries := 5 }, protocol := Protocol.QUIC,
        inFallback := false }
      { current := Protocol.QUIC, fallbackProtocol := some Protocol.HTTP2 }
      { kind := errKind.otherError, msg := "" }).2 (by decide)⟩

/-- C8: immediately after `reset()` a `protocolFallback` satisfies
`inFallback = false` and `ReachedMaxRetries() = false` (given a positive
retry maximum), and immediately after `fallback(p)` it satisfies
`inFallback = true` and `protocol = p`, with the backoff counter cleared. -/
theorem protocolFallback_reset_fallback_invariants (pf : protocolFallback)
    (h : 0 < pf.backoff.maxRetries) (p : Protocol) :
    pf.reset.inFallback = false ∧ pf.reset.ReachedMaxRetries = false ∧
    (pf.fallback p).inFallback = true ∧ (pf.fallback p).protocol = p ∧
    (pf.fallback p).backoff.retryCount = 0 := by
  simp [protocolFallback.reset, protocolFallback.fallback,
    protocolFallback.ReachedMaxRetries, BackoffHandler.ReachedMaxRetries,
    BackoffHandler.ResetNow, Nat.not_le.mpr h, Nat.pos_iff_ne_zero.mp h]

/-- C8 witness. -/
theorem protocolFallback_reset_fallback_invariants_witness :
    (0 : Nat) < 5 ∧
    ((protocolFallback.reset
        { backoff := { retryCount := 4, maxRetries := 5 }, protocol := Protocol.QUIC,
          inFallback := true }).inFallback = false ∧
      (protocolFallback.reset
        { backoff := { retryCount := 4, maxRetries := 5 }, protocol := Protocol.QUIC,
          inFallback := true }).ReachedMaxRetries = false ∧
      (protocolFallback.fallback
        { backoff := { retryCount := 4, maxRetries := 5 }, protocol := Protocol.QUIC,
          inFallback := true } Protocol.HTTP2).inFallback = true ∧
      (protocolFallback.fallback
        { backoff := { retryCount := 4, maxRetries := 5 }, protocol := Protocol.QUIC,
          inFallback := true } Protocol.HTTP2).protocol = Protocol.HTTP2 ∧
      (protocolFallback.fallback
        { backoff := { retryCount := 4, maxRetries := 5 }, protocol := Protocol.QUIC,
          inFallback := true } Protocol.HTTP2).backoff.retryCount = 0) :=
  ⟨by decide,
    protocolFallback_reset_fallback_invariants
      { backoff := { retryCount := 4, maxRetries := 5 }, protocol := Protocol.QUIC,
        inFallback := true } (by decide) Protocol.HTTP2⟩

/-- C1: with a non-empty `proxyURL`, when the SOCKS5 attempt fails for any
reason (invalid proxy URL, SOCKS5 dialer creation failure, or proxy dial
failure) `DialEdgeWithProxy` does not return that proxy error: it falls
through to a direct TCP dial, and whenever the direct dial and the TLS
handshake succeed it returns the TLS-wrapped connection with a nil error. -/
theorem dialEdgeWithProxy_proxy_failure_falls_back_direct
    (env : dialEnv) (proxyURL : String) (id : Nat)
    (hurl : proxyURL ≠ "")
    (hproxy : ∃ msg, dialViaProxy env = Except.error msg)
    (hdirect : env.directDial = dialOutcome.conn id)
    (htls : env.tlsHandshakeOk id = true) :
    (DialEdgeWithProxy env proxyURL).result = Except.ok (edgeConn.tlsWrapped id) := by
  obtain ⟨msg, hmsg⟩ := hproxy
  simp [DialEdgeWithProxy, hurl, hmsg, dialDirect, hdirect, tlsPhase, htls]

/-- C1 witness: a dead proxy (invalid URL) with a live direct path. -/
theorem dialEdgeWithProxy_proxy_failure_falls_back_direct_witness :
    (DialEdgeWithProxy proxyDownEnv "socks5://bad url").result =
      Except.ok (edgeConn.tlsWrapped 3) :=
  dialEdgeWithProxy_proxy_failure_falls_back_direct proxyDownEnv "socks5://bad url" 3
    (by decide) ⟨"invalid proxy URL", rfl⟩ rfl rfl

/-- C5 counterexample: when the direct dial succeeds (TCP connection 3) and
the TLS handshake then fails, `DialEdgeWithProxy` returns the handshake
error without closing the opened TCP connection — so it is not the case
that every opened TCP connection is either returned wrapped in TLS or
explicitly closed on the failure path. -/
theorem dialEdgeWithProxy_handshake_failure_leaves_conn_unclosed :
    (DialEdgeWithProxy handshakeFailEnv "").openedConns = [3] ∧
    (DialEdgeWithProxy handshakeFailEnv "").closedConns = [] ∧
    (DialEdgeWithProxy handshakeFailEnv "").result =
      Except.error (newDialError "" "TLS handshake with edge error") :=
  ⟨rfl, rfl, rfl⟩

/-- C5 (amended): `DialEdgeWithProxy` never explicitly closes a TCP
connection; every TCP connection it opens is returned to the caller wrapped
in TLS when the handshake succeeds, and when the TLS handshake fails the
error is returned with the underlying TCP connection left unclosed. -/
theorem dialEdgeWithProxy_conn_lifecycle (env : dialEnv) (proxyURL : String) :
    (DialEdgeWithProxy env proxyURL).closedConns = [] ∧
    ∀ id, id ∈ (DialEdgeWithProxy env proxyURL).openedConns →
      (env.tlsHandshakeOk id = true ∧
        (DialEdgeWithProxy env proxyURL).result = Except.ok (edgeConn.tlsWrapped id)) ∨
      (env.tlsHandshakeOk id = false ∧
        (DialEdgeWithProxy env proxyURL).result =
          Except.error (newDialError "" "TLS handshake with edge error")) := by
  by_cases hurl : proxyURL = ""
  · cases hd : env.directDial with
    | conn id =>
      by_cases ht : env.tlsHandshakeOk id = true <;>
        simp_all [DialEdgeWithProxy, dialDirect, tlsPhase]
    | failure m => simp [DialEdgeWithProxy, hurl, dialDirect, hd]
  · cases hp : dialViaProxy env with
    | ok id =>
      by_cases ht : env.tlsHandshakeOk id = true <;>
        simp_all [DialEdgeWithProxy, tlsPhase]
    | error m =>
      cases hd : env.directDial with
      | conn id =>
        by_cases ht : env.tlsHandshakeOk id = true <;>
          simp_all [DialEdgeWithProxy, dialDirect, tlsPhase]
      | failure m2 => simp [DialEdgeWithProxy, hurl, hp, dialDirect, hd]

/-- C5 amended witness: a concrete run whose single opened connection ends
in a failed handshake, unclosed. -/
theorem dialEdgeWithProxy_conn_lifecycle_witness :
    (DialEdgeWithProxy handshakeFailEnv "").closedConns = [] ∧
    ((handshakeFailEnv.tlsHandshakeOk 3 = true ∧
      (DialEdgeWithProxy handshakeFailEnv "").result = Except.ok (edgeConn.tlsWrapped 3)) ∨
     (handshakeFailEnv.tlsHandshakeOk 3 = false ∧
      (DialEdgeWithProxy handshakeFailEnv "").result =
        Except.error (newDialError "" "TLS handshake with edge error"))) :=
  ⟨(dialEdgeWithProxy_conn_lifecycle handshakeFailEnv "").1,
    (dialEdgeWithProxy_conn_lifecycle handshakeFailEnv "").2 3
      (by simp [DialEdgeWithProxy, handshakeFailEnv, dialDirect, tlsPhase])⟩

/-- C3: `ShouldGetNewAddress` on the `ipAddrFallback` handler: a nil error
yields `(false, nil)`; a duplicate-registration or QUIC idle-timeout error
yields `(true, nil)`; a `DialError` or `EdgeQuicDialError` yields
`(true, ConnectivityError)` where `reachedMax` is `count ≥ maxRetries`, the
counter is incremented when `reachedMax` is false, and the counter is reset
to 0 exactly when `reachedMax = true` is returned; every other error yields
`(false, nil)`. -/
theorem shouldGetNewAddress_spec (f : ipAddrFallback) (i : Nat) (err : Option tunnelErr) :
    (err = none → f.ShouldGetNewAddress i err = (f, false, none)) ∧
    (∀ e, err = some e →
      ((e.kind = errKind.dupConnRegisterTunnelError ∨ e.kind = errKind.quicIdleTimeoutError) →
        f.ShouldGetNewAddress i err = (f, true, none)) ∧
      ((e.kind = errKind.dialError ∨ e.kind = errKind.edgeQuicDialError) →
        (f.maxRetries ≤ alGet f.retriesByConnIndex i →
          f.ShouldGetNewAddress i err =
            ({ f with retriesByConnIndex := alSet f.retriesByConnIndex i 0 },
              true, some (NewConnectivityError true))) ∧
        (alGet f.retriesByConnIndex i < f.maxRetries →
          f.ShouldGetNewAddress i err =
            ({ f with retriesByConnIndex := alSet f.retriesByConnIndex i (alGet f.retriesByConnIndex i + 1) },
              true, some (NewConnectivityError false)))) ∧
      (e.kind ≠ errKind.dupConnRegisterTunnelError → e.kind ≠ errKind.quicIdleTimeoutError →
        e.kind ≠ errKind.dialError → e.kind ≠ errKind.edgeQuicDialError →
        f.ShouldGetNewAddress i err = (f, false, none))) := by
  refine ⟨fun h => by subst h; rfl, fun e he => ?_⟩
  subst he
  obtain ⟨k, m⟩ := e
  refine ⟨fun hk => ?_, fun hk => ⟨fun hge => ?_, fun hlt => ?_⟩, fun h1 h2 h3 h4 => ?_⟩
  · rcases hk with hk | hk <;> subst hk <;> rfl
  · rcases hk with hk | hk <;> subst hk <;>
      simp [ipAddrFallback.ShouldGetNewAddress, hge]
  · rcases hk with hk | hk <;> subst hk <;>
      simp [ipAddrFallback.ShouldGetNewAddress, Nat.not_le.mpr hlt]
  · cases k <;> simp_all [ipAddrFallback.ShouldGetNewAddress]

/-- C3 witness: a first dial error on index 1 increments the counter and
reports a non-max connectivity error. -/
theorem shouldGetNewAddress_spec_witness :
    ipAddrFallback.ShouldGetNewAddress (NewIPAddrFallback 2) 1
      (some { kind := errKind.dialError, msg := "dial tcp: refused" }) =
      ({ NewIPAddrFallback 2 with retriesByConnIndex := alSet (NewIPAddrFallback 2).retriesByConnIndex 1 (alGet (NewIPAddrFallback 2).retriesByConnIndex 1 + 1) },
        true, some (NewConnectivityError false)) :=
  (((shouldGetNewAddress_spec (NewIPAddrFallback 2) 1
      (some { kind := errKind.dialError, msg := "dial tcp: refused" })).2
    { kind := errKind.dialError, msg := "dial tcp: refused" } rfl).2.1
    (Or.inl rfl)).2 (by decide)

/-- C10: `ShouldGetNewAddress` on the `ipAddrFallback` handler mutates at
most the retry counter for the given index (it never changes `maxRetries`,
counters of other indices are never modified, and no state changes at all
unless the error is a `DialError` or `EdgeQuicDialError`), and starting
from `NewIPAddrFallback`, after any sequence of calls every stored counter
is at most `maxRetries`. -/
theorem shouldGetNewAddress_frame_and_bound :
    (∀ (f : ipAddrFallback) (i : Nat) (err : Option tunnelErr),
      (f.ShouldGetNewAddress i err).1.maxRetries = f.maxRetries ∧
      (∀ j, j ≠ i →
        alGet (f.ShouldGetNewAddress i err).1.retriesByConnIndex j =
          alGet f.retriesByConnIndex j) ∧
      ((∀ e, err = some e →
          e.kind ≠ errKind.dialError ∧ e.kind ≠ errKind.edgeQuicDialError) →
        (f.ShouldGetNewAddress i err).1 = f)) ∧
    (∀ (calls : List (Nat × Option tunnelErr)) (maxR j : Nat),
      alGet (calls.foldl (fun st c => (st.ShouldGetNewAddress c.1 c.2).1)
        (NewIPAddrFallback maxR)).retriesByConnIndex j ≤ maxR) := by
  constructor
  · intro f i err
    refine ⟨shouldGetNewAddress_preserves_max f i err,
      fun j hj => shouldGetNewAddress_other_counters f i err j hj, fun hk => ?_⟩
    rcases err with _ | e
    · rfl
    · obtain ⟨hd, hq⟩ := hk e rfl
      obtain ⟨k, m⟩ := e
      cases k <;> simp_all [ipAddrFallback.ShouldGetNewAddress]
  · intro calls
    suffices h : ∀ (f : ipAddrFallback),
        (∀ j, alGet f.retriesByConnIndex j ≤ f.maxRetries) →
        ∀ j, alGet (calls.foldl (fun st c => (st.ShouldGetNewAddress c.1 c.2).1)
          f).retriesByConnIndex j ≤ f.maxRetries by
      intro maxR j
      exact h (NewIPAddrFallback maxR) (fun _ => by simp [NewIPAddrFallback, alGet]) j
    induction calls with
    | nil => intro f hf j; exact hf j
    | cons c cs ih =>
      intro f hf j
      simp only [List.foldl_cons]
      have hmax := shouldGetNewAddress_preserves_max f c.1 c.2
      have hstep := shouldGetNewAddress_counter_le f c.1 c.2 hf
      have := ih ((f.ShouldGetNewAddress c.1 c.2).1) (fun j2 => by rw [hmax]; exact hstep j2) j
      rwa [hmax] at this

/-- C10 witness: a QUIC application error on index 1 leaves the handler
state untouched. -/
theorem shouldGetNewAddress_frame_and_bound_witness :
    (ipAddrFallback.ShouldGetNewAddress (NewIPAddrFallback 2) 1
      (some { kind := errKind.quicApplicationError, msg := "app error" })).1 =
      NewIPAddrFallback 2 :=
  (shouldGetNewAddress_frame_and_bound.1 (NewIPAddrFallback 2) 1
    (some { kind := errKind.quicApplicationError, msg := "app error" })).2.2
    (fun e he => by cases he; exact ⟨by decide, by decide⟩)

/-- C7 counterexample: calling `waitForNextTunnel 5` on a supervisor whose
`tunnelsConnecting` is `{2 ↦ 7}` (so 5 is absent) changes the supervisor
state — `nextConnectedIndex` and `nextConnectedSignal` are repointed at the
remaining entry — so the call is not a no-op on the supervisor state. -/
theorem waitForNextTunnel_absent_index_not_noop :
    (Supervisor.waitForNextTunnel
      { tunnelsConnecting := [(2, 7)], nextConnectedIndex := 0,
        nextConnectedSignal := none } 5).1 ≠
      { tunnelsConnecting := [(2, 7)], nextConnectedIndex := 0,
        nextConnectedSignal := none } ∧
    (∀ p ∈ [((2 : Nat), (7 : Nat))], p.1 ≠ 5) := by decide

/-- C7 (amended): calling `waitForNextTunnel(i)` with an index `i` that is
not in `tunnelsConnecting` leaves `tunnelsConnecting` unchanged and returns
false iff `tunnelsConnecting` was already empty; however it clears
`nextConnectedSignal` (to nil when the map is empty) and, when the map is
non-empty, repoints `(nextConnectedIndex, nextConnectedSignal)` at one of
the remaining entries. -/
theorem waitForNextTunnel_absent_index_spec (s : Supervisor) (index : Nat)
    (habs : ∀ p ∈ s.tunnelsConnecting, p.1 ≠ index) :
    (s.waitForNextTunnel index).1.tunnelsConnecting = s.tunnelsConnecting ∧
    ((s.waitForNextTunnel index).2 = false ↔ s.tunnelsConnecting = []) ∧
    (s.tunnelsConnecting = [] →
      (s.waitForNextTunnel index).1 = { s with nextConnectedSignal := none }) ∧
    (s.tunnelsConnecting ≠ [] →
      ∃ p ∈ s.tunnelsConnecting,
        (s.waitForNextTunnel index).1.nextConnectedIndex = p.1 ∧
        (s.waitForNextTunnel index).1.nextConnectedSignal = some p.2) := by
  obtain ⟨tc, ni, ns⟩ := s
  cases tc with
  | nil => simp [Supervisor.waitForNextTunnel, alErase]
  | cons p rest =>
    obtain ⟨k, v⟩ := p
    have he : alErase ((k, v) :: rest) index = (k, v) :: rest :=
      alErase_of_absent _ _ habs
    refine ⟨?_, ?_, ?_, ?_⟩ <;>
      simp [Supervisor.waitForNextTunnel, he]

/-- C7 witness: with `{2 ↦ 7}` pending and absent index 5, the connecting
map is unchanged. -/
theorem waitForNextTunnel_absent_index_spec_witness :
    (Supervisor.waitForNextTunnel
      { tunnelsConnecting := [(2, 7)], nextConnectedIndex := 0,
        nextConnectedSignal := none } 5).1.tunnelsConnecting = [(2, 7)] :=
  (waitForNextTunnel_absent_index_spec
    { tunnelsConnecting := [(2, 7)], nextConnectedIndex := 0,
      nextConnectedSignal := none } 5 (by decide)).1

/-- C9: when a `tunnelError` event carries a `ReconnectSignal` and shutdown
has not started, the supervisor loop respawns the index immediately: the
index is not appended to `tunnelsWaiting`, the shared backoff timer is not
started by this event, the active count is net unchanged, and the only
supervisor-state effect is installing the respawned attempt's fresh
connected signal via `newConnectedTunnelSignal(index)`. -/
theorem handleTunnelError_reconnectSignal_respawns_immediately
    (st : runLoopState) (index : Nat) (e : tunnelErr) (canRetry : Bool) (freshSig : Nat)
    (hk : e.kind = errKind.reconnectSignal) (hsd : st.shuttingDown = false) :
    (handleTunnelError st index (some e) canRetry freshSig).2 =
      runLoopOutcome.respawnedNow ∧
    (handleTunnelError st index (some e) canRetry freshSig).1.tunnelsWaiting =
      st.tunnelsWaiting ∧
    (handleTunnelError st index (some e) canRetry freshSig).1.backoffTimerRunning =
      st.backoffTimerRunning ∧
    (handleTunnelError st index (some e) canRetry freshSig).1.supervisor =
      st.supervisor.newConnectedTunnelSignal index freshSig ∧
    (handleTunnelError st index (some e) canRetry freshSig).1.tunnelsActive =
      st.tunnelsActive := by
  obtain ⟨sup, tw, ta, btr, sd⟩ := st
  simp only at hsd
  subst hsd
  simp [handleTunnelError, hk]

/-- C9 witness. -/
theorem handleTunnelError_reconnectSignal_respawns_immediately_witness :
    (handleTunnelError sampleRunLoopState 2
      (some { kind := errKind.reconnectSignal, msg := "reconnect" }) true 11).2 =
      runLoopOutcome.respawnedNow ∧
    (handleTunnelError sampleRunLoopState 2
      (some { kind := errKind.reconnectSignal, msg := "reconnect" }) true 11).1.supervisor =
      sampleRunLoopState.supervisor.newConnectedTunnelSignal 2 11 :=
  ⟨(handleTunnelError_reconnectSignal_respawns_immediately sampleRunLoopState 2
      { kind := errKind.reconnectSignal, msg := "reconnect" } true 11 rfl rfl).1,
    (handleTunnelError_reconnectSignal_respawns_immediately sampleRunLoopState 2
      { kind := errKind.reconnectSignal, msg := "reconnect" } true 11 rfl rfl).2.2.2.1⟩

/-- C4 counterexample: with the context live and a Serve error whose message
contains "Unauthorized", the first-tunnel loop nevertheless stops when
`GetMaxBackoffDuration` reports no retries remain (retry counter exhausted)
— so the loop does not retry indefinitely until success or cancellation. -/
theorem startFirstTunnel_unauthorized_stops_when_retries_exhausted :
    containsSubstr "Unauthorized" "Unauthorized" = true ∧
    startFirstTunnelBody false false
      (some { kind := errKind.otherError, msg := "Unauthorized" })
      { backoff := { retryCount := 5, maxRetries := 5 }, protocol := Protocol.HTTP2,
        inFallback := false } = firstTunnelStep.stopLoop := by decide

/-- C4 (amended): whenever `Serve` returns an error whose message contains
"Unauthorized", the context is not cancelled, and `GetMaxBackoffDuration`
reports that retries remain, the first-tunnel loop retries inline; it stops
on success, on context cancellation, or when retries are exhausted. -/
theorem startFirstTunnel_unauthorized_retries_while_backoff_remains
    (isStaticEdge : Bool) (e : tunnelErr) (pf : protocolFallback)
    (hmsg : containsSubstr e.msg "Unauthorized" = true)
    (hretry : pf.retryRemains = true) :
    startFirstTunnelBody isStaticEdge false (some e) pf = firstTunnelStep.retryLoop := by
  simp [startFirstTunnelBody, hretry, hmsg]

/-- C4 witness. -/
theorem startFirstTunnel_unauthorized_retries_while_backoff_remains_witness :
    startFirstTunnelBody false false
      (some { kind := errKind.otherError, msg := "Unauthorized" })
      { backoff := { retryCount := 0, maxRetries := 5 }, protocol := Protocol.HTTP2,
        inFallback := false } = firstTunnelStep.retryLoop :=
  startFirstTunnel_unauthorized_retries_while_backoff_remains false
    { kind := errKind.otherError, msg := "Unauthorized" }
    { backoff := { retryCount := 0, maxRetries := 5 }, protocol := Protocol.HTTP2,
      inFallback := false } (by decide) (by decide)
